import Mathlib

/-!
Verification of the rocBLAS wrapper / dispatch-shim / test-harness layer.

The development shallowly embeds the C++ sources:
  * `library/src/src64/blas2/rocblas_hpmv_kernels_64.cpp` - the 64-bit-index
    batch-chunking shim `rocblas_hpmv_launcher_64`;
  * `library/src/blas3/rocblas_trtri_strided_batched.cpp` - the
    `rocblas_trtri_strided_batched` implementation wrapper and its four
    `extern "C"` entry points;
  * the test-harness templates `testing_nrm2`, `testing_dot`,
    `testing_spr2_batched`.
Pointers are modelled as integer addresses, machine integers as `Int`
(all arithmetic in the embedded fragments is overflow-free in the ranges
exercised), statuses as an enumeration, and C++ exceptions as the `error`
side of `Except`.  Opaque collaborators (the 32-bit kernel launchers, the
CPU reference BLAS, `std::pow`) are function parameters of the embeddings.
-/

/-- The rocBLAS status enumeration (the members used by the embedded code). -/
inductive RocblasStatus where
  | success
  | invalid_handle
  | invalid_pointer
  | invalid_size
  | invalid_value
  | memory_error
  | internal_error
  | size_unchanged
  | size_increased
  | continue_status
  deriving DecidableEq, Repr

/-- `INT32_MAX`, the constant `c_i32_max` of `int64_helpers.hpp`. -/
def c_i32_max : Int := 2147483647

/-- Modelled from the spec: the fixed 32-bit-safe chunk limit
`c_i64_grid_YZ_chunk` of `int64_helpers.hpp` (not part of the excerpt); the
spec describes it as "a fixed 32-bit-safe limit" on the per-call batch count,
and the value used by the library is `65535` (the maximal HIP grid Y/Z
dimension). -/
def c_i64_grid_YZ_chunk : Int := 65535

/-- The argument vector of one call to the 32-bit `rocblas_hpmv_launcher`.
The scalars `alpha`, `beta` and the `uplo` flag are forwarded unchanged by
the 64-bit shim and are elided; pointers are integer addresses measured in
units of one batch-stride step. -/
structure Hpmv32Args where
  n : Int
  A_ptr : Int
  shiftA : Int
  strideA : Int
  x_ptr : Int
  offsetx : Int
  incx : Int
  stridex : Int
  y_ptr : Int
  offsety : Int
  incy : Int
  stridey : Int
  batch_count : Int
  deriving DecidableEq, Repr

/-- The per-call arguments of `rocblas_hpmv_launcher_64` that stay fixed
across chunks. -/
structure HpmvParams where
  n : Int
  AP : Int
  offseta : Int
  strideA : Int
  x : Int
  offsetx : Int
  incx : Int
  stridex : Int
  y : Int
  offsety : Int
  incy : Int
  stridey : Int
  deriving DecidableEq, Repr

/-- The arguments the shim passes to the 32-bit launcher for the chunk with
base `b_base`: base pointers advanced by `b_base` strides
(`adjust_ptr_batch`), batch count `min(batch_count_64 - b_base,
c_i64_grid_YZ_chunk)`, everything else forwarded. -/
def mkChunkArgs (p : HpmvParams) (batch_count_64 b_base : Int) : Hpmv32Args :=
  { n := p.n
    A_ptr := p.AP + b_base * p.strideA
    shiftA := p.offseta
    strideA := p.strideA
    x_ptr := p.x + b_base * p.stridex
    offsetx := p.offsetx
    incx := p.incx
    stridex := p.stridex
    y_ptr := p.y + b_base * p.stridey
    offsety := p.offsety
    incy := p.incy
    stridey := p.stridey
    batch_count := min (batch_count_64 - b_base) c_i64_grid_YZ_chunk }

/-- The `for(b_base = 0; b_base < batch_count_64; b_base += c_i64_grid_YZ_chunk)`
loop body of `rocblas_hpmv_launcher_64`.  `L` is the (opaque) 32-bit
`rocblas_hpmv_launcher`; besides the returned status the embedding records
the trace of launcher invocations.  A non-success chunk status is returned
immediately, so the trace ends at the failing chunk. -/
def hpmv_loop (L : Hpmv32Args → RocblasStatus) (p : HpmvParams)
    (batch_count_64 : Int) (b_base : Int) : RocblasStatus × List Hpmv32Args :=
  if h : b_base < batch_count_64 then
    let a := mkChunkArgs p batch_count_64 b_base
    let status := L a
    if status = RocblasStatus.success then
      let r := hpmv_loop L p batch_count_64 (b_base + c_i64_grid_YZ_chunk)
      (r.1, a :: r.2)
    else
      (status, [a])
  else
    (RocblasStatus.success, [])
termination_by (batch_count_64 - b_base).toNat
decreasing_by
  simp only [c_i64_grid_YZ_chunk]
  omega

/-- `rocblas_hpmv_launcher_64` of `rocblas_hpmv_kernels_64.cpp`: quick
return on `!n_64 || !batch_count_64`, `rocblas_status_invalid_size` for
`n_64 > c_i32_max`, otherwise the chunking loop.  The second component is
the trace of 32-bit launcher invocations. -/
def rocblas_hpmv_launcher_64 (L : Hpmv32Args → RocblasStatus) (p : HpmvParams)
    (batch_count_64 : Int) : RocblasStatus × List Hpmv32Args :=
  if p.n = 0 ∨ batch_count_64 = 0 then
    (RocblasStatus.success, [])
  else if p.n > c_i32_max then
    (RocblasStatus.invalid_size, [])
  else
    hpmv_loop L p batch_count_64 0

/-- Number of chunks needed for `batch_count_64` batches,
`⌈batch_count_64 / c_i64_grid_YZ_chunk⌉`. -/
def hpmvNumChunks (batch_count_64 : Int) : Nat :=
  (batch_count_64.toNat + 65534) / 65535

/-- Written from the spec sentence of the claim: the chunk bases
`0, c_i64_grid_YZ_chunk, 2 * c_i64_grid_YZ_chunk, ...` in increasing
order. -/
def hpmvSpecBases (batch_count_64 : Int) : List Int :=
  (List.range (hpmvNumChunks batch_count_64)).map
    (fun i : Nat => (i : Int) * c_i64_grid_YZ_chunk)

/-- Written from the spec sentence of the claim: iterate the 32-bit launcher
over the given chunk bases, each call covering
`min(batch_count_64 - b_base, c_i64_grid_YZ_chunk)` batches with the base
pointers advanced by `b_base` strides, stopping at (and returning) the first
non-success status, and returning success when every call succeeds. -/
def runChunks (L : Hpmv32Args → RocblasStatus) (p : HpmvParams)
    (batch_count_64 : Int) : List Int → RocblasStatus × List Hpmv32Args
  | [] => (RocblasStatus.success, [])
  | b :: rest =>
    let a := mkChunkArgs p batch_count_64 b
    let status := L a
    if status = RocblasStatus.success then
      let r := runChunks L p batch_count_64 rest
      (r.1, a :: r.2)
    else
      (status, [a])

lemma hpmv_loop_done (L : Hpmv32Args → RocblasStatus) (p : HpmvParams)
    (batch_count_64 b_base : Int) (h : ¬ b_base < batch_count_64) :
    hpmv_loop L p batch_count_64 b_base = (RocblasStatus.success, []) := by
  rw [hpmv_loop]
  simp [h]

lemma hpmv_loop_step (L : Hpmv32Args → RocblasStatus) (p : HpmvParams)
    (batch_count_64 b_base : Int) (h : b_base < batch_count_64) :
    hpmv_loop L p batch_count_64 b_base =
      if L (mkChunkArgs p batch_count_64 b_base) = RocblasStatus.success then
        ((hpmv_loop L p batch_count_64 (b_base + c_i64_grid_YZ_chunk)).1,
          mkChunkArgs p batch_count_64 b_base ::
            (hpmv_loop L p batch_count_64 (b_base + c_i64_grid_YZ_chunk)).2)
      else
        (L (mkChunkArgs p batch_count_64 b_base),
          [mkChunkArgs p batch_count_64 b_base]) := by
  rw [hpmv_loop]
  simp [h]

lemma runChunks_cons (L : Hpmv32Args → RocblasStatus) (p : HpmvParams)
    (batch_count_64 b : Int) (rest : List Int) :
    runChunks L p batch_count_64 (b :: rest) =
      if L (mkChunkArgs p batch_count_64 b) = RocblasStatus.success then
        ((runChunks L p batch_count_64 rest).1,
          mkChunkArgs p batch_count_64 b :: (runChunks L p batch_count_64 rest).2)
      else
        (L (mkChunkArgs p batch_count_64 b), [mkChunkArgs p batch_count_64 b]) := by
  rw [runChunks]

lemma hpmv_loop_eq_runChunks (L : Hpmv32Args → RocblasStatus) (p : HpmvParams)
    (bc : Int) (hbc : 1 ≤ bc) (m : Nat) :
    ∀ j : Nat, hpmvNumChunks bc = j + m →
      hpmv_loop L p bc ((j : Int) * c_i64_grid_YZ_chunk) =
        runChunks L p bc
          ((List.range m).map (fun i => ((j + i : Nat) : Int) * c_i64_grid_YZ_chunk)) := by
  induction m with
  | zero =>
    intro j hm
    have hnotlt : ¬ ((j : Int) * c_i64_grid_YZ_chunk < bc) := by
      simp only [hpmvNumChunks] at hm
      simp only [c_i64_grid_YZ_chunk]
      omega
    rw [hpmv_loop_done L p bc _ hnotlt]
    simp [runChunks]
  | succ m ih =>
    intro j hm
    have hlt : ((j : Int) * c_i64_grid_YZ_chunk < bc) := by
      simp only [hpmvNumChunks] at hm
      simp only [c_i64_grid_YZ_chunk]
      omega
    have hrec : ((j : Int) * c_i64_grid_YZ_chunk + c_i64_grid_YZ_chunk)
        = ((j + 1 : Nat) : Int) * c_i64_grid_YZ_chunk := by
      push_cast
      ring
    have hlist : (List.range (m + 1)).map
          (fun i => ((j + i : Nat) : Int) * c_i64_grid_YZ_chunk)
        = ((j : Int) * c_i64_grid_YZ_chunk) ::
            (List.range m).map
              (fun i => ((j + 1 + i : Nat) : Int) * c_i64_grid_YZ_chunk) := by
      rw [List.range_succ_eq_map, List.map_cons, List.map_map]
      refine congrArg₂ List.cons ?_ ?_
      · push_cast
        ring
      · apply List.map_congr_left
        intro i _
        simp only [Function.comp_apply]
        push_cast
        ring
    rw [hpmv_loop_step L p bc _ hlt, hlist, runChunks_cons, hrec,
      ih (j + 1) (by omega)]

/-- C1: for `1 ≤ n_64 ≤ INT32_MAX` and `batch_count_64 ≥ 1`,
`rocblas_hpmv_launcher_64` is equivalent to iterating the 32-bit
`rocblas_hpmv_launcher` over the consecutive chunk bases
`0, c_i64_grid_YZ_chunk, 2 * c_i64_grid_YZ_chunk, ...` in increasing order,
each per-chunk call covering `min(batch_count_64 - b_base,
c_i64_grid_YZ_chunk)` batches (hence at most `c_i64_grid_YZ_chunk`) with the
`AP`, `x` and `y` base pointers advanced by `b_base` strides, the first
non-success chunk status being returned immediately without later launches,
and success returned iff every per-chunk call succeeds. -/
theorem hpmv_launcher_64_eq_chunked_iteration
    (L : Hpmv32Args → RocblasStatus) (p : HpmvParams) (batch_count_64 : Int)
    (hn1 : 1 ≤ p.n) (hn2 : p.n ≤ c_i32_max) (hbc : 1 ≤ batch_count_64) :
    rocblas_hpmv_launcher_64 L p batch_count_64 =
      runChunks L p batch_count_64 (hpmvSpecBases batch_count_64) := by
  have h := hpmv_loop_eq_runChunks L p batch_count_64 hbc
    (hpmvNumChunks batch_count_64) 0 (by omega)
  have h0 : ((0 : Nat) : Int) * c_i64_grid_YZ_chunk = 0 := by norm_num
  have hl : (List.range (hpmvNumChunks batch_count_64)).map
        (fun i => ((0 + i : Nat) : Int) * c_i64_grid_YZ_chunk)
      = hpmvSpecBases batch_count_64 := by
    rw [hpmvSpecBases]
    apply List.map_congr_left
    intro i _
    norm_num
  rw [h0, hl] at h
  rw [rocblas_hpmv_launcher_64, if_neg (by omega),
    if_neg (by omega : ¬ p.n > c_i32_max)]
  exact h

theorem hpmv_launcher_64_eq_chunked_iteration_witness :
    rocblas_hpmv_launcher_64
        (fun a => if a.batch_count ≤ 0 then RocblasStatus.internal_error
          else RocblasStatus.success)
        ⟨3, 100, 0, 7, 200, 0, 1, 5, 300, 0, 1, 6⟩ 70000 =
      runChunks
        (fun a => if a.batch_count ≤ 0 then RocblasStatus.internal_error
          else RocblasStatus.success)
        ⟨3, 100, 0, 7, 200, 0, 1, 5, 300, 0, 1, 6⟩ 70000
        (hpmvSpecBases 70000) :=
  hpmv_launcher_64_eq_chunked_iteration _ _ _ (by decide) (by decide) (by decide)

/-- C8: a zero problem dimension or zero batch count is a quick return with
`rocblas_status_success`, not an argument error, and the 32-bit launcher is
never invoked (the call trace is empty). -/
theorem hpmv_launcher_64_quick_return
    (L : Hpmv32Args → RocblasStatus) (p : HpmvParams) (batch_count_64 : Int)
    (h : p.n = 0 ∨ batch_count_64 = 0) :
    rocblas_hpmv_launcher_64 L p batch_count_64
      = (RocblasStatus.success, []) := by
  rw [rocblas_hpmv_launcher_64, if_pos h]

theorem hpmv_launcher_64_quick_return_witness :
    rocblas_hpmv_launcher_64 (fun _ => RocblasStatus.internal_error)
        ⟨0, 0, 0, 0, 0, 0, 0, 0, 0, 0, 0, 0⟩ 5
      = (RocblasStatus.success, []) :=
  hpmv_launcher_64_quick_return _ _ _ (Or.inl rfl)

/-- C9 counterexample: with `n_64 = 2^31 > c_i32_max` but
`batch_count_64 = 0`, the quick return fires before the size check and the
shim returns `rocblas_status_success`, not `rocblas_status_invalid_size`
as claimed for every call with `n_64 > c_i32_max`. -/
theorem hpmv_launcher_64_n_too_large_counterexample :
    c_i32_max < (2147483648 : Int) ∧
      (rocblas_hpmv_launcher_64 (fun _ => RocblasStatus.success)
          ⟨2147483648, 0, 0, 0, 0, 0, 0, 0, 0, 0, 0, 0⟩ 0).1
        ≠ RocblasStatus.invalid_size := by
  refine ⟨by decide, ?_⟩
  rw [rocblas_hpmv_launcher_64, if_pos (Or.inr rfl)]
  decide

/-- C9 (amended): for every call with a nonzero batch count and
`n_64 > c_i32_max`, the shim returns `rocblas_status_invalid_size` without
calling the 32-bit launcher: only the batch count is chunked, never the
dimension `n`. -/
theorem hpmv_launcher_64_n_too_large
    (L : Hpmv32Args → RocblasStatus) (p : HpmvParams) (batch_count_64 : Int)
    (hbc : batch_count_64 ≠ 0) (hn : p.n > c_i32_max) :
    rocblas_hpmv_launcher_64 L p batch_count_64
      = (RocblasStatus.invalid_size, []) := by
  have hn0 : ¬ (p.n = 0 ∨ batch_count_64 = 0) := by
    simp only [c_i32_max] at hn
    omega
  rw [rocblas_hpmv_launcher_64, if_neg hn0, if_pos hn]

theorem hpmv_launcher_64_n_too_large_witness :
    rocblas_hpmv_launcher_64 (fun _ => RocblasStatus.success)
        ⟨2147483648, 0, 0, 0, 0, 0, 0, 0, 0, 0, 0, 0⟩ 1
      = (RocblasStatus.invalid_size, []) :=
  hpmv_launcher_64_n_too_large _ _ _ (by decide) (by decide)

/-- A C++ exception as caught by the `catch(...)` blocks of the C entry
points: an allocation failure or anything else. -/
inductive CppException where
  | bad_alloc
  | other
  deriving DecidableEq, Repr

/-- Modelled from the spec: `exception_to_rocblas_status` (defined outside
the excerpt) translates a caught C++ exception into a status code; the spec
says the wrappers "translate exceptions to status codes", and the library
maps allocation failures to `rocblas_status_memory_error` and any other
exception to `rocblas_status_internal_error`. -/
def exception_to_rocblas_status : CppException → RocblasStatus
  | CppException.bad_alloc => RocblasStatus.memory_error
  | CppException.other => RocblasStatus.internal_error

/-- The parts of `rocblas_handle` read by the embedded trtri wrapper: the
device-memory-size-query flag, `set_optimal_device_memory_size` (recording
an optimal workspace size, returning a status), and `device_malloc`
(whether allocating a workspace of the given byte size succeeds). -/
structure Handle where
  is_device_memory_size_query : Bool
  set_optimal_device_memory_size : Nat → RocblasStatus
  device_malloc : Nat → Bool
  layer_mode : Nat

/-- `rocblas_trtri_strided_batched_impl` of
`rocblas_trtri_strided_batched.cpp`.  Its opaque collaborators are
parameters: `tempSize` is `rocblas_internal_trtri_temp_size<NB>`, `argCheck`
the result of `rocblas_trtri_arg_check` on these arguments, and `small` and
`large` the outcomes of the kernel launchers `rocblas_trtri_small` and
`rocblas_trtri_large` (an `Except.error` models a C++ exception escaping the
callee).  `sizeofT` is `sizeof(T)`; logging does not affect the result and
is elided. -/
def rocblas_trtri_strided_batched_impl (NB : Int) (sizeofT : Nat)
    (tempSize : Int → Int → Nat) (argCheck : RocblasStatus)
    (small large : Except CppException RocblasStatus)
    (handle : Option Handle) (n batch_count : Int) :
    Except CppException RocblasStatus :=
  match handle with
  | none => Except.ok RocblasStatus.invalid_handle
  | some h =>
    let size := tempSize n batch_count * sizeofT
    if h.is_device_memory_size_query then
      if n ≤ NB ∨ batch_count = 0 then
        Except.ok RocblasStatus.size_unchanged
      else
        Except.ok (h.set_optimal_device_memory_size size)
    else if argCheck ≠ RocblasStatus.continue_status then
      Except.ok argCheck
    else if n ≤ NB then
      small
    else if h.device_malloc size then
      large
    else
      Except.ok RocblasStatus.memory_error

/-- The shared body of the four `extern "C"` entry points of
`rocblas_trtri_strided_batched.cpp`: call the impl with `NB = 16` inside
`try`, converting any escaping exception via
`exception_to_rocblas_status`. -/
def trtri_strided_batched_c_entry (sizeofT : Nat)
    (tempSize : Int → Int → Nat) (argCheck : RocblasStatus)
    (small large : Except CppException RocblasStatus)
    (handle : Option Handle) (n batch_count : Int) : RocblasStatus :=
  match rocblas_trtri_strided_batched_impl 16 sizeofT tempSize argCheck small
      large handle n batch_count with
  | Except.ok s => s
  | Except.error e => exception_to_rocblas_status e

/-- `rocblas_strtri_strided_batched` (`T = float`, `sizeof(T) = 4`). -/
def rocblas_strtri_strided_batched := trtri_strided_batched_c_entry 4

/-- `rocblas_dtrtri_strided_batched` (`T = double`, `sizeof(T) = 8`). -/
def rocblas_dtrtri_strided_batched := trtri_strided_batched_c_entry 8

/-- `rocblas_ctrtri_strided_batched` (`T = rocblas_float_complex`,
`sizeof(T) = 8`). -/
def rocblas_ctrtri_strided_batched := trtri_strided_batched_c_entry 8

/-- `rocblas_ztrtri_strided_batched` (`T = rocblas_double_complex`,
`sizeof(T) = 16`). -/
def rocblas_ztrtri_strided_batched := trtri_strided_batched_c_entry 16

/-- C2: each of the four `extern "C"` entry points always yields a
`RocblasStatus` (they are total functions into the status type); whenever
the impl throws, the caught exception is converted via
`exception_to_rocblas_status` into the returned status. -/
theorem trtri_c_entry_points_catch_exceptions
    (tempSize : Int → Int → Nat) (argCheck : RocblasStatus)
    (small large : Except CppException RocblasStatus)
    (handle : Option Handle) (n batch_count : Int) (e : CppException)
    (h4 : rocblas_trtri_strided_batched_impl 16 4 tempSize argCheck small
        large handle n batch_count = Except.error e)
    (h8 : rocblas_trtri_strided_batched_impl 16 8 tempSize argCheck small
        large handle n batch_count = Except.error e)
    (h16 : rocblas_trtri_strided_batched_impl 16 16 tempSize argCheck small
        large handle n batch_count = Except.error e) :
    rocblas_strtri_strided_batched tempSize argCheck small large handle n
        batch_count = exception_to_rocblas_status e ∧
    rocblas_dtrtri_strided_batched tempSize argCheck small large handle n
        batch_count = exception_to_rocblas_status e ∧
    rocblas_ctrtri_strided_batched tempSize argCheck small large handle n
        batch_count = exception_to_rocblas_status e ∧
    rocblas_ztrtri_strided_batched tempSize argCheck small large handle n
        batch_count = exception_to_rocblas_status e := by
  unfold rocblas_strtri_strided_batched rocblas_dtrtri_strided_batched
    rocblas_ctrtri_strided_batched rocblas_ztrtri_strided_batched
    trtri_strided_batched_c_entry
  rw [h4, h8, h16]
  exact ⟨rfl, rfl, rfl, rfl⟩

theorem trtri_c_entry_points_catch_exceptions_witness :
    rocblas_strtri_strided_batched (fun _ _ => 0) RocblasStatus.continue_status
        (Except.error CppException.bad_alloc) (Except.error CppException.other)
        (some ⟨false, fun _ => RocblasStatus.success, fun _ => true, 0⟩) 1 1
      = exception_to_rocblas_status CppException.bad_alloc ∧
    rocblas_dtrtri_strided_batched (fun _ _ => 0) RocblasStatus.continue_status
        (Except.error CppException.bad_alloc) (Except.error CppException.other)
        (some ⟨false, fun _ => RocblasStatus.success, fun _ => true, 0⟩) 1 1
      = exception_to_rocblas_status CppException.bad_alloc ∧
    rocblas_ctrtri_strided_batched (fun _ _ => 0) RocblasStatus.continue_status
        (Except.error CppException.bad_alloc) (Except.error CppException.other)
        (some ⟨false, fun _ => RocblasStatus.success, fun _ => true, 0⟩) 1 1
      = exception_to_rocblas_status CppException.bad_alloc ∧
    rocblas_ztrtri_strided_batched (fun _ _ => 0) RocblasStatus.continue_status
        (Except.error CppException.bad_alloc) (Except.error CppException.other)
        (some ⟨false, fun _ => RocblasStatus.success, fun _ => true, 0⟩) 1 1
      = exception_to_rocblas_status CppException.bad_alloc :=
  trtri_c_entry_points_catch_exceptions _ _ _ _ _ _ _ _ rfl rfl rfl

/-- C3: with a non-null handle, not in size-query mode, and a passing
argument check, the kernel variant is selected by problem size: `n ≤ NB`
dispatches to `rocblas_trtri_small` (no workspace consulted), `n > NB`
first allocates a workspace of `tempSize n batch_count * sizeof(T)` bytes
and dispatches to `rocblas_trtri_large`, returning
`rocblas_status_memory_error` without dispatching when that allocation
fails; the status returned is the dispatched launcher's status. -/
theorem trtri_impl_selects_kernel_by_size (NB : Int) (sizeofT : Nat)
    (tempSize : Int → Int → Nat)
    (small large : Except CppException RocblasStatus)
    (h : Handle) (n batch_count : Int)
    (hq : h.is_device_memory_size_query = false) :
    (n ≤ NB →
      rocblas_trtri_strided_batched_impl NB sizeofT tempSize
        RocblasStatus.continue_status small large (some h) n batch_count
        = small) ∧
    (NB < n → h.device_malloc (tempSize n batch_count * sizeofT) = true →
      rocblas_trtri_strided_batched_impl NB sizeofT tempSize
        RocblasStatus.continue_status small large (some h) n batch_count
        = large) ∧
    (NB < n → h.device_malloc (tempSize n batch_count * sizeofT) = false →
      rocblas_trtri_strided_batched_impl NB sizeofT tempSize
        RocblasStatus.continue_status small large (some h) n batch_count
        = Except.ok RocblasStatus.memory_error) := by
  unfold rocblas_trtri_strided_batched_impl
  refine ⟨fun hn => ?_, fun hn hm => ?_, fun hn hm => ?_⟩
  · simp [hq, hn]
  · simp [hq, hm, not_le.mpr hn]
  · simp [hq, hm, not_le.mpr hn]

theorem trtri_impl_selects_kernel_by_size_witness :
    (rocblas_trtri_strided_batched_impl 16 4 (fun _ _ => 7)
        RocblasStatus.continue_status (Except.ok RocblasStatus.success)
        (Except.ok RocblasStatus.internal_error)
        (some ⟨false, fun _ => RocblasStatus.success, fun _ => true, 0⟩) 10 2
      = Except.ok RocblasStatus.success) ∧
    (rocblas_trtri_strided_batched_impl 16 4 (fun _ _ => 7)
        RocblasStatus.continue_status (Except.ok RocblasStatus.success)
        (Except.ok RocblasStatus.internal_error)
        (some ⟨false, fun _ => RocblasStatus.success, fun _ => true, 0⟩) 20 2
      = Except.ok RocblasStatus.internal_error) ∧
    (rocblas_trtri_strided_batched_impl 16 4 (fun _ _ => 7)
        RocblasStatus.continue_status (Except.ok RocblasStatus.success)
        (Except.ok RocblasStatus.internal_error)
        (some ⟨false, fun _ => RocblasStatus.success, fun _ => false, 0⟩) 20 2
      = Except.ok RocblasStatus.memory_error) :=
  ⟨(trtri_impl_selects_kernel_by_size 16 4 (fun _ _ => 7)
      (Except.ok RocblasStatus.success) (Except.ok RocblasStatus.internal_error)
      ⟨false, fun _ => RocblasStatus.success, fun _ => true, 0⟩ 10 2 rfl).1
      (by decide),
   (trtri_impl_selects_kernel_by_size 16 4 (fun _ _ => 7)
      (Except.ok RocblasStatus.success) (Except.ok RocblasStatus.internal_error)
      ⟨false, fun _ => RocblasStatus.success, fun _ => true, 0⟩ 20 2 rfl).2.1
      (by decide) rfl,
   (trtri_impl_selects_kernel_by_size 16 4 (fun _ _ => 7)
      (Except.ok RocblasStatus.success) (Except.ok RocblasStatus.internal_error)
      ⟨false, fun _ => RocblasStatus.success, fun _ => false, 0⟩ 20 2 rfl).2.2
      (by decide) rfl⟩

/-- C4: with a non-null handle in device-memory-size-query mode, the impl
returns before logging, argument checking or kernel dispatch (the result
does not depend on `argCheck`, `small` or `large`):
`rocblas_status_size_unchanged` when `n ≤ NB` or `batch_count == 0`, and
otherwise the status of recording the optimal size
`tempSize n batch_count * sizeof(T)` via
`set_optimal_device_memory_size`. -/
theorem trtri_impl_size_query (NB : Int) (sizeofT : Nat)
    (tempSize : Int → Int → Nat) (argCheck : RocblasStatus)
    (small large : Except CppException RocblasStatus)
    (h : Handle) (n batch_count : Int)
    (hq : h.is_device_memory_size_query = true) :
    rocblas_trtri_strided_batched_impl NB sizeofT tempSize argCheck small
        large (some h) n batch_count
      = if n ≤ NB ∨ batch_count = 0 then
          Except.ok RocblasStatus.size_unchanged
        else
          Except.ok (h.set_optimal_device_memory_size
            (tempSize n batch_count * sizeofT)) := by
  unfold rocblas_trtri_strided_batched_impl
  simp [hq]

theorem trtri_impl_size_query_witness :
    rocblas_trtri_strided_batched_impl 16 4 (fun _ _ => 7)
        RocblasStatus.continue_status (Except.ok RocblasStatus.success)
        (Except.ok RocblasStatus.success)
        (some ⟨true, fun s => if s = 28 then RocblasStatus.success
          else RocblasStatus.internal_error, fun _ => true, 0⟩) 20 2
      = if (20 : Int) ≤ 16 ∨ (2 : Int) = 0 then
          Except.ok RocblasStatus.size_unchanged
        else
          Except.ok ((fun s => if s = 28 then RocblasStatus.success
            else RocblasStatus.internal_error) ((fun _ _ => (7 : Nat)) (20 : Int) (2 : Int) * 4)) :=
  trtri_impl_size_query 16 4 (fun _ _ => 7) RocblasStatus.continue_status
    (Except.ok RocblasStatus.success) (Except.ok RocblasStatus.success)
    ⟨true, fun s => if s = 28 then RocblasStatus.success
      else RocblasStatus.internal_error, fun _ => true, 0⟩ 20 2 rfl

/-- The `rocblas_fill` enumeration. -/
inductive RocblasFill where
  | upper
  | lower
  | full
  deriving DecidableEq, Repr

/-- The `rocblas_pointer_mode` enumeration. -/
inductive PointerMode where
  | host
  | device
  deriving DecidableEq, Repr

/-- The arguments of one `rocblas_spr2_batched` call as exercised by the
harness: `alpha = none` is a null alpha pointer and `alpha = some v` a
non-null pointer to the value `v` (readable by the wrapper only in host
pointer mode); `x_null`, `y_null` and `AP_null` record nullness of the data
pointers, whose contents the wrapper never reads. -/
structure Spr2Call where
  uplo : RocblasFill
  N : Int
  alpha : Option ℚ
  x_null : Bool
  incx : Int
  y_null : Bool
  incy : Int
  AP_null : Bool
  batch_count : Int
  deriving DecidableEq, Repr

/-- Modelled from the spec: the argument validation of
`rocblas_spr2_batched`, whose implementation is not in the excerpt (only
its harness is).  The spec describes the wrapper layer as "validate
arguments, ... and return a status code" with distinct statuses per failure
kind, and the harness asserts the statuses encoded here: null handle, then
invalid `uplo` enum, then invalid sizes (`N < 0`, zero increments,
`batch_count < 0`), then the `N == 0 || batch_count == 0` quick return,
then a null `alpha` pointer; in host pointer mode a zero `alpha` is a quick
return and a nonzero-`alpha` call requires non-null data pointers.  The
numerical work is delegated to an opaque launcher and reported as
success. -/
def rocblas_spr2_batched (handle : Option PointerMode) (c : Spr2Call) :
    RocblasStatus :=
  match handle with
  | none => RocblasStatus.invalid_handle
  | some pm =>
    if c.uplo = RocblasFill.full then
      RocblasStatus.invalid_value
    else if c.N < 0 ∨ c.incx = 0 ∨ c.incy = 0 ∨ c.batch_count < 0 then
      RocblasStatus.invalid_size
    else if c.N = 0 ∨ c.batch_count = 0 then
      RocblasStatus.success
    else
      match c.alpha with
      | none => RocblasStatus.invalid_pointer
      | some a =>
        if pm = PointerMode.host then
          if a = 0 then
            RocblasStatus.success
          else if c.x_null ∨ c.y_null ∨ c.AP_null then
            RocblasStatus.invalid_pointer
          else
            RocblasStatus.success
        else
          RocblasStatus.success

/-- Modelled from the spec: the argument validation of `rocblas_nrm2`,
whose implementation is not in the excerpt (only its harness is): null
handle; for `N <= 0 || incx <= 0` a quick return that writes zero to a
non-null result and succeeds; otherwise null `x` or a null result pointer
is invalid, and the reduction kernel's value is out of scope (`none`).
Returns the status and the value written to the result. -/
def rocblas_nrm2 (handle_null : Bool) (N : Int) (x_null : Bool) (incx : Int)
    (result_null : Bool) : RocblasStatus × Option ℚ :=
  if handle_null then
    (RocblasStatus.invalid_handle, none)
  else if N ≤ 0 ∨ incx ≤ 0 then
    if result_null then (RocblasStatus.invalid_pointer, none)
    else (RocblasStatus.success, some 0)
  else if x_null ∨ result_null then
    (RocblasStatus.invalid_pointer, none)
  else
    (RocblasStatus.success, none)

/-- Modelled from the spec: `rocblas_dot` / `rocblas_dotc`, whose
implementation is not in the excerpt (only its harness is): null handle;
null result pointer; for `N <= 0` a quick return that accepts null `x` and
`y`, writes an exact zero to the result in either pointer mode and
succeeds; otherwise null `x` or `y` is invalid and the reduction kernel's
value is out of scope (`none`).  `conj` selects `dotc` and affects neither
validation nor the quick return.  Returns the status and the value written
to the result. -/
def rocblas_dot (conj : Bool) (handle : Option PointerMode) (N : Int)
    (x_null : Bool) (incx : Int) (y_null : Bool) (incy : Int)
    (result_null : Bool) : RocblasStatus × Option ℚ :=
  match handle with
  | none => (RocblasStatus.invalid_handle, none)
  | some _ =>
    if result_null then
      (RocblasStatus.invalid_pointer, none)
    else if N ≤ 0 then
      (RocblasStatus.success, some 0)
    else if x_null ∨ y_null then
      (RocblasStatus.invalid_pointer, none)
    else
      (RocblasStatus.success, none)

/-- The `N <= 0` early-exit path of `testing_dot`
(`blas1/testing_dot.hpp` lines 108-133): call the routine with null `x` and
`y` under device pointer mode and then under host pointer mode; both calls
must succeed (`CHECK_ROCBLAS_ERROR`) and both written results are
unit-checked against the constant `T(0)`. -/
def testing_dot_early_exit
    (dot : Option PointerMode → Int → Bool → Int → Bool → Int → Bool →
      RocblasStatus × Option ℚ)
    (N incx incy : Int) : Bool :=
  let r0 := dot (some PointerMode.device) N true incx true incy false
  let r1 := dot (some PointerMode.host) N true incx true incy false
  decide (r0.1 = RocblasStatus.success) && decide (r1.1 = RocblasStatus.success)
    && decide (r0.2 = some 0) && decide (r1.2 = some 0)

/-- C5: handle and argument validation precedes the numerical work and
yields distinct statuses by failure kind.  A null handle yields
`rocblas_status_invalid_handle` - checked first in
`rocblas_trtri_strided_batched_impl` (for every problem and every
collaborator outcome) and as expected by the bad-arg harnesses of
`spr2_batched`, `nrm2` and `dot`; `rocblas_fill_full` yields
`rocblas_status_invalid_value`; a null `alpha` yields
`rocblas_status_invalid_pointer` in either pointer mode, and in host
pointer mode with a nonzero `alpha` so does a null `x`, `y` or `AP`. -/
theorem validation_statuses_by_failure_kind
    (NB : Int) (sizeofT : Nat) (tempSize : Int → Int → Nat)
    (argCheck : RocblasStatus)
    (small large : Except CppException RocblasStatus)
    (n batch_count N incx incy : Int)
    (x_null y_null result_null conjF : Bool)
    (pm : PointerMode) (c : Spr2Call) :
    (rocblas_trtri_strided_batched_impl NB sizeofT tempSize argCheck small
        large none n batch_count = Except.ok RocblasStatus.invalid_handle) ∧
    (rocblas_spr2_batched none c = RocblasStatus.invalid_handle) ∧
    (rocblas_nrm2 true N x_null incx result_null
        = (RocblasStatus.invalid_handle, none)) ∧
    (rocblas_dot conjF none N x_null incx y_null incy result_null
        = (RocblasStatus.invalid_handle, none)) ∧
    (c.uplo = RocblasFill.full →
      rocblas_spr2_batched (some pm) c = RocblasStatus.invalid_value) ∧
    (c.uplo ≠ RocblasFill.full → 0 < c.N → c.incx ≠ 0 → c.incy ≠ 0 →
      0 < c.batch_count → c.alpha = none →
      rocblas_spr2_batched (some pm) c = RocblasStatus.invalid_pointer) ∧
    (c.uplo ≠ RocblasFill.full → 0 < c.N → c.incx ≠ 0 → c.incy ≠ 0 →
      0 < c.batch_count → ∀ a : ℚ, c.alpha = some a → a ≠ 0 →
      (c.x_null = true ∨ c.y_null = true ∨ c.AP_null = true) →
      rocblas_spr2_batched (some PointerMode.host) c
        = RocblasStatus.invalid_pointer) := by
  refine ⟨rfl, rfl, rfl, rfl, fun hf => ?_, ?_, ?_⟩
  · simp [rocblas_spr2_batched, hf]
  · intro h1 h2 h3 h4 h5 h6
    simp only [rocblas_spr2_batched]
    rw [if_neg h1,
      if_neg (by omega : ¬(c.N < 0 ∨ c.incx = 0 ∨ c.incy = 0 ∨ c.batch_count < 0)),
      if_neg (by omega : ¬(c.N = 0 ∨ c.batch_count = 0)), h6]
  · intro h1 h2 h3 h4 h5 a ha ha0 hnull
    simp only [rocblas_spr2_batched]
    rw [if_neg h1,
      if_neg (by omega : ¬(c.N < 0 ∨ c.incx = 0 ∨ c.incy = 0 ∨ c.batch_count < 0)),
      if_neg (by omega : ¬(c.N = 0 ∨ c.batch_count = 0)), ha]
    simp only [if_pos rfl, if_neg ha0]
    rw [if_pos hnull]
    simp

theorem validation_statuses_by_failure_kind_witness :
    (rocblas_trtri_strided_batched_impl 16 4 (fun _ _ => 7)
        RocblasStatus.continue_status (Except.ok RocblasStatus.success)
        (Except.ok RocblasStatus.success) none 10 2
      = Except.ok RocblasStatus.invalid_handle) ∧
    (rocblas_spr2_batched none
        ⟨RocblasFill.upper, 100, some 1, false, 1, false, 1, false, 2⟩
      = RocblasStatus.invalid_handle) ∧
    (rocblas_nrm2 true 100 false 1 false
      = (RocblasStatus.invalid_handle, none)) ∧
    (rocblas_dot false none 100 false 1 false 1 false
      = (RocblasStatus.invalid_handle, none)) ∧
    (rocblas_spr2_batched (some PointerMode.host)
        ⟨RocblasFill.full, 100, some 1, false, 1, false, 1, false, 2⟩
      = RocblasStatus.invalid_value) ∧
    (rocblas_spr2_batched (some PointerMode.device)
        ⟨RocblasFill.upper, 100, none, false, 1, false, 1, false, 2⟩
      = RocblasStatus.invalid_pointer) ∧
    (rocblas_spr2_batched (some PointerMode.host)
        ⟨RocblasFill.upper, 100, some 1, true, 1, false, 1, false, 2⟩
      = RocblasStatus.invalid_pointer) :=
  ⟨(validation_statuses_by_failure_kind 16 4 (fun _ _ => 7)
      RocblasStatus.continue_status (Except.ok RocblasStatus.success)
      (Except.ok RocblasStatus.success) 10 2 100 1 1 false false false false
      PointerMode.host
      ⟨RocblasFill.upper, 100, some 1, false, 1, false, 1, false, 2⟩).1,
   (validation_statuses_by_failure_kind 16 4 (fun _ _ => 7)
      RocblasStatus.continue_status (Except.ok RocblasStatus.success)
      (Except.ok RocblasStatus.success) 10 2 100 1 1 false false false false
      PointerMode.host
      ⟨RocblasFill.upper, 100, some 1, false, 1, false, 1, false, 2⟩).2.1,
   (validation_statuses_by_failure_kind 16 4 (fun _ _ => 7)
      RocblasStatus.continue_status (Except.ok RocblasStatus.success)
      (Except.ok RocblasStatus.success) 10 2 100 1 1 false false false false
      PointerMode.host
      ⟨RocblasFill.upper, 100, some 1, false, 1, false, 1, false, 2⟩).2.2.1,
   (validation_statuses_by_failure_kind 16 4 (fun _ _ => 7)
      RocblasStatus.continue_status (Except.ok RocblasStatus.success)
      (Except.ok RocblasStatus.success) 10 2 100 1 1 false false false false
      PointerMode.host
      ⟨RocblasFill.upper, 100, some 1, false, 1, false, 1, false, 2⟩).2.2.2.1,
   (validation_statuses_by_failure_kind 16 4 (fun _ _ => 7)
      RocblasStatus.continue_status (Except.ok RocblasStatus.success)
      (Except.ok RocblasStatus.success) 10 2 100 1 1 false false false false
      PointerMode.host
      ⟨RocblasFill.full, 100, some 1, false, 1, false, 1, false, 2⟩).2.2.2.2.1
      rfl,
   (validation_statuses_by_failure_kind 16 4 (fun _ _ => 7)
      RocblasStatus.continue_status (Except.ok RocblasStatus.success)
      (Except.ok RocblasStatus.success) 10 2 100 1 1 false false false false
      PointerMode.device
      ⟨RocblasFill.upper, 100, none, false, 1, false, 1, false, 2⟩).2.2.2.2.2.1
      (by decide) (by decide) (by decide) (by decide) (by decide) rfl,
   (validation_statuses_by_failure_kind 16 4 (fun _ _ => 7)
      RocblasStatus.continue_status (Except.ok RocblasStatus.success)
      (Except.ok RocblasStatus.success) 10 2 100 1 1 false false false false
      PointerMode.host
      ⟨RocblasFill.upper, 100, some 1, true, 1, false, 1, false, 2⟩).2.2.2.2.2.2
      (by decide) (by decide) (by decide) (by decide) (by decide) 1 rfl
      (by decide) (Or.inl rfl)⟩

/-- C6: as asserted by the spr2_batched harness with all data pointers
null: an invalid size (`N < 0`, a zero increment, or `batch_count < 0`)
yields `rocblas_status_invalid_size`; otherwise a zero `N`, a zero
`batch_count`, or an `alpha` pointing to zero yields
`rocblas_status_success` even though `alpha`, `x`, `y` and `AP` may all be
null. -/
theorem spr2_batched_sizes_and_quick_returns (pm : PointerMode)
    (c : Spr2Call) (huplo : c.uplo ≠ RocblasFill.full) :
    (c.N < 0 ∨ c.incx = 0 ∨ c.incy = 0 ∨ c.batch_count < 0 →
      rocblas_spr2_batched (some pm) c = RocblasStatus.invalid_size) ∧
    (¬(c.N < 0 ∨ c.incx = 0 ∨ c.incy = 0 ∨ c.batch_count < 0) →
      c.N = 0 ∨ c.batch_count = 0 ∨ c.alpha = some 0 →
      rocblas_spr2_batched (some pm) c = RocblasStatus.success) := by
  constructor
  · intro hsz
    simp only [rocblas_spr2_batched]
    rw [if_neg huplo, if_pos hsz]
  · intro hsz hqr
    simp only [rocblas_spr2_batched]
    rw [if_neg huplo, if_neg hsz]
    by_cases hzero : c.N = 0 ∨ c.batch_count = 0
    · rw [if_pos hzero]
    · rw [if_neg hzero]
      have ha : c.alpha = some 0 := by
        rcases hqr with h | h | h
        · exact absurd (Or.inl h) hzero
        · exact absurd (Or.inr h) hzero
        · exact h
      rw [ha]
      cases pm
      · simp
      · simp

theorem spr2_batched_sizes_and_quick_returns_witness :
    (rocblas_spr2_batched (some PointerMode.host)
        ⟨RocblasFill.upper, (-1), none, true, 1, true, 1, true, 2⟩
      = RocblasStatus.invalid_size) ∧
    (rocblas_spr2_batched (some PointerMode.host)
        ⟨RocblasFill.upper, 100, some 0, true, 1, true, 1, true, 2⟩
      = RocblasStatus.success) :=
  ⟨(spr2_batched_sizes_and_quick_returns PointerMode.host
      ⟨RocblasFill.upper, (-1), none, true, 1, true, 1, true, 2⟩
      (by decide)).1 (Or.inl (by decide)),
   (spr2_batched_sizes_and_quick_returns PointerMode.host
      ⟨RocblasFill.upper, 100, some 0, true, 1, true, 1, true, 2⟩
      (by decide)).2 (by decide) (Or.inr (Or.inr rfl))⟩

/-- C10: for every `N ≤ 0` and any increments, `rocblas_dot` and
`rocblas_dotc` accept null `x` and `y`, return `rocblas_status_success`,
and write exactly zero to the result in both pointer modes, so every check
of the early-exit path of `testing_dot` (which compares both pointer-mode
results against `T(0)`) passes. -/
theorem dot_quick_return_writes_zero (conjF : Bool) (pm : PointerMode)
    (N incx incy : Int) (hN : N ≤ 0) :
    rocblas_dot conjF (some pm) N true incx true incy false
        = (RocblasStatus.success, some 0) ∧
    testing_dot_early_exit (rocblas_dot conjF) N incx incy = true := by
  have hcall : ∀ pm' : PointerMode,
      rocblas_dot conjF (some pm') N true incx true incy false
        = (RocblasStatus.success, some 0) := by
    intro pm'
    simp [rocblas_dot, hN]
  refine ⟨hcall pm, ?_⟩
  simp [testing_dot_early_exit, hcall]

theorem dot_quick_return_writes_zero_witness :
    rocblas_dot true (some PointerMode.device) (-3) true 1 true 1 false
        = (RocblasStatus.success, some 0) ∧
    testing_dot_early_exit (rocblas_dot true) (-3) 1 1 = true :=
  dot_quick_return_writes_zero true PointerMode.device (-3) 1 1 (by decide)

/-- Events of one `testing_nrm2` run: seeding and pseudo-random host
initialization, the host-to-device copy, a GPU call under a pointer mode on
the device data, the CPU reference call on the host data, a near-check of a
GPU result against the CPU result with an absolute tolerance, and the
(opaque) timing block. -/
inductive Nrm2Event where
  | seed_rand
  | init_host_random
  | copy_host_to_device
  | gpu_call (pm : PointerMode)
  | cpu_call
  | near_check (cpu gpu tol : ℚ)
  | timing_block
  deriving DecidableEq, Repr

/-- The members of `Arguments` read by `testing_nrm2`. -/
structure Nrm2Arg where
  N : Int
  incx : Int
  unit_check : Bool
  norm_check : Bool
  timing : Bool
  deriving DecidableEq, Repr

/-- `near_check_general` on a single scalar: the GPU value is accepted iff
it is within `abs_error` of the CPU value. -/
def near_check_pass (cpu gpu abs_error : ℚ) : Bool :=
  decide (|cpu - gpu| ≤ abs_error)

/-- `testing_nrm2` of `testing_nrm2.hpp`, with the numeric outcomes of its
collaborators as parameters: `digits10` is
`std::numeric_limits<real_t<T>>::digits10`, `tenPow` models `pow(10.0, e)`,
`r1` and `r2` are the GPU results under host and device pointer mode, and
`cpu` the `cblas_nrm2` reference result.  Returns the event trace and
whether every executed unit check passed (`true` when none ran).  The
`N <= 0 || incx <= 0` early path calls the routine once with a null `x`
and returns; the performance-timing block is opaque. -/
def testing_nrm2 (digits10 : Nat) (tenPow : ℚ → ℚ) (r1 r2 cpu : ℚ)
    (arg : Nrm2Arg) : List Nrm2Event × Bool :=
  if arg.N ≤ 0 ∨ arg.incx ≤ 0 then
    ([Nrm2Event.gpu_call PointerMode.host], true)
  else
    let setup := [Nrm2Event.seed_rand, Nrm2Event.init_host_random,
      Nrm2Event.copy_host_to_device]
    let checks :=
      if arg.unit_check ∨ arg.norm_check then
        let abs_error0 := tenPow (-((digits10 : ℚ) / 2)) * cpu
        let tolerance : ℚ := 2
        let abs_error := abs_error0 * tolerance
        ([Nrm2Event.gpu_call PointerMode.host,
            Nrm2Event.gpu_call PointerMode.device, Nrm2Event.cpu_call] ++
          (if arg.unit_check then
            [Nrm2Event.near_check cpu r1 abs_error,
             Nrm2Event.near_check cpu r2 abs_error]
          else []),
         if arg.unit_check then
           near_check_pass cpu r1 abs_error && near_check_pass cpu r2 abs_error
         else true)
      else
        ([], true)
    (setup ++ checks.1 ++
       (if arg.timing then [Nrm2Event.timing_block] else []),
     checks.2)

/-- C7: with `N > 0`, `incx > 0` and unit checking enabled, `testing_nrm2`
initializes the host input with seeded pseudo-random data, copies it to the
device, invokes GPU nrm2 under host pointer mode and then under device
pointer mode on that same device data, invokes the CPU reference
`cblas_nrm2` on the same host data, and accepts each of the two GPU results
iff it is within `abs_error = 2 * 10^(-digits10/2) * cpu_result` of the CPU
result. -/
theorem testing_nrm2_unit_check_behavior (digits10 : Nat) (tenPow : ℚ → ℚ)
    (r1 r2 cpu : ℚ) (arg : Nrm2Arg)
    (hN : 0 < arg.N) (hincx : 0 < arg.incx) (hu : arg.unit_check = true) :
    (testing_nrm2 digits10 tenPow r1 r2 cpu arg).1
      = [Nrm2Event.seed_rand, Nrm2Event.init_host_random,
          Nrm2Event.copy_host_to_device,
          Nrm2Event.gpu_call PointerMode.host,
          Nrm2Event.gpu_call PointerMode.device, Nrm2Event.cpu_call,
          Nrm2Event.near_check cpu r1
            (2 * tenPow (-((digits10 : ℚ) / 2)) * cpu),
          Nrm2Event.near_check cpu r2
            (2 * tenPow (-((digits10 : ℚ) / 2)) * cpu)] ++
        (if arg.timing then [Nrm2Event.timing_block] else []) ∧
    ((testing_nrm2 digits10 tenPow r1 r2 cpu arg).2 = true ↔
      (|cpu - r1| ≤ 2 * tenPow (-((digits10 : ℚ) / 2)) * cpu ∧
       |cpu - r2| ≤ 2 * tenPow (-((digits10 : ℚ) / 2)) * cpu)) := by
  have hcond : ¬(arg.N ≤ 0 ∨ arg.incx ≤ 0) := by omega
  have habs : tenPow (-((digits10 : ℚ) / 2)) * cpu * 2
      = 2 * tenPow (-((digits10 : ℚ) / 2)) * cpu := by ring
  simp only [testing_nrm2, if_neg hcond, hu, true_or, if_true, if_pos,
    habs, near_check_pass]
  constructor
  · simp
  · simp [Bool.and_eq_true, decide_eq_true_eq]

theorem testing_nrm2_unit_check_behavior_witness :
    (testing_nrm2 6 (fun _ => 1 / 1000) 1 1 1 ⟨5, 1, true, false, false⟩).1
      = [Nrm2Event.seed_rand, Nrm2Event.init_host_random,
          Nrm2Event.copy_host_to_device,
          Nrm2Event.gpu_call PointerMode.host,
          Nrm2Event.gpu_call PointerMode.device, Nrm2Event.cpu_call,
          Nrm2Event.near_check 1 1
            (2 * (fun _ : ℚ => (1 : ℚ) / 1000) (-((6 : ℚ) / 2)) * 1),
          Nrm2Event.near_check 1 1
            (2 * (fun _ : ℚ => (1 : ℚ) / 1000) (-((6 : ℚ) / 2)) * 1)] ++
        (if (⟨5, 1, true, false, false⟩ : Nrm2Arg).timing then
          [Nrm2Event.timing_block] else []) ∧
    ((testing_nrm2 6 (fun _ => 1 / 1000) 1 1 1 ⟨5, 1, true, false, false⟩).2
        = true ↔
      (|(1 : ℚ) - 1| ≤ 2 * (fun _ : ℚ => (1 : ℚ) / 1000) (-((6 : ℚ) / 2)) * 1 ∧
       |(1 : ℚ) - 1| ≤ 2 * (fun _ : ℚ => (1 : ℚ) / 1000) (-((6 : ℚ) / 2)) * 1)) :=
  testing_nrm2_unit_check_behavior 6 (fun _ => 1 / 1000) 1 1 1
    ⟨5, 1, true, false, false⟩ (by decide) (by decide) rfl
